import Mathlib

/-!
Verification of the api-gateway-cache repository.

The repository ships two Express backend services (`user-service`,
`product-service`) whose handlers are embedded below directly from the
JavaScript source.  The gateway core (Cache Key Builder, Cache Store,
Route Table, Request Router) is described by the specification but its
source is not part of the checked tree, so those components are modelled
from the spec, as marked in their doc comments.
-/

/-- A minimal JSON value model, sufficient for the bodies the services build
with `res.json(...)`. -/
inductive Json where
  | str (s : String) : Json
  | num (q : Rat) : Json
  | bool (b : Bool) : Json
  | arr (xs : List Json) : Json
  | obj (fields : List (String × Json)) : Json

/-- Whether a JSON value is an object with a field of the given name. -/
def Json.hasField : Json → String → Bool
  | .obj fs, f => fs.any (fun p => p.1 == f)
  | _, _ => false

/-- Look up a field of a JSON object (first occurrence). -/
def Json.getField : Json → String → Option Json
  | .obj fs, f =>
    match fs.find? (fun p => p.1 == f) with
    | some p => some p.2
    | none => none
  | _, _ => none

/-- Equality of the underlying character lists determines string equality. -/
theorem strDataEq {s t : String} (h : s.data = t.data) : s = t := by
  cases s; cases t; exact congrArg String.mk h

/-- Modelled from the spec: trailing-slash normalization of request paths
("trailing slashes are normalized (stripped)"); case is preserved. -/
def normalizePath (p : String) : String :=
  ⟨(p.data.reverse.dropWhile (fun c => c == '/')).reverse⟩

/-- Ordering on query parameters: by name, ties broken by value ("query
parameters are sorted by name before concatenation"). -/
def qle (a b : String × String) : Prop :=
  a.1 < b.1 ∨ (a.1 = b.1 ∧ a.2 ≤ b.2)

instance : DecidableRel qle := fun _ _ =>
  inferInstanceAs (Decidable (_ ∨ _))

instance : IsTotal (String × String) qle where
  total a b := by
    unfold qle
    rcases lt_trichotomy a.1 b.1 with h | h | h
    · exact Or.inl (Or.inl h)
    · rcases le_total a.2 b.2 with hv | hv
      · exact Or.inl (Or.inr ⟨h, hv⟩)
      · exact Or.inr (Or.inr ⟨h.symm, hv⟩)
    · exact Or.inr (Or.inl h)

instance : IsTrans (String × String) qle where
  trans a b c hab hbc := by
    unfold qle at *
    rcases hab with h1 | ⟨h1, v1⟩
    · rcases hbc with h2 | ⟨h2, _⟩
      · exact Or.inl (h1.trans h2)
      · exact Or.inl (h2 ▸ h1)
    · rcases hbc with h2 | ⟨h2, v2⟩
      · exact Or.inl (h1 ▸ h2)
      · exact Or.inr ⟨h1.trans h2, v1.trans v2⟩

instance : IsAntisymm (String × String) qle where
  antisymm a b hab hba := by
    unfold qle at *
    rcases hab with h1 | ⟨h1, v1⟩
    · rcases hba with h2 | ⟨h2, _⟩
      · exact absurd (h1.trans h2) (lt_irrefl _)
      · exact absurd h1 (h2 ▸ lt_irrefl _)
    · rcases hba with h2 | ⟨h2, v2⟩
      · exact absurd h2 (h1 ▸ lt_irrefl _)
      · exact Prod.ext h1 (le_antisymm v1 v2)

/-- Modelled from the spec: canonical sorting of query parameters. -/
def sortQuery (q : List (String × String)) : List (String × String) :=
  List.insertionSort qle q

/-- Serialization of a single `name=value` query pair. -/
def encPair (p : String × String) : List Char :=
  p.1.data ++ '=' :: p.2.data

/-- Serialization of a query-parameter list, one `&name=value` block per
pair. -/
def encQuery : List (String × String) → List Char
  | [] => []
  | p :: rest => '&' :: (encPair p ++ encQuery rest)

/-- Modelled from the spec: the Cache Key Builder.  `buildKey` concatenates
the HTTP method, the normalized path and the name-sorted query parameters
into one deterministic key string (`buildKey(method, path, query, headers)
-> string`); no headers are incorporated here since the claims quantify
over method, path and query only. -/
def buildKey (method path : String) (query : List (String × String)) : String :=
  ⟨method.data ++ '|' :: ((normalizePath path).data ++ '|' :: encQuery (sortQuery query))⟩

/-- A query string component is well formed when it is free of the
separator characters, as URL-encoded components are. -/
def goodStr (s : String) : Prop :=
  '&' ∉ s.data ∧ '=' ∉ s.data

instance : DecidablePred goodStr := fun _ =>
  inferInstanceAs (Decidable (_ ∧ _))

/-- A query is well formed when all of its names and values are. -/
def wfQuery (q : List (String × String)) : Prop :=
  ∀ p ∈ q, goodStr p.1 ∧ goodStr p.2

instance : DecidablePred wfQuery := fun q =>
  inferInstanceAs (Decidable (∀ p ∈ q, _ ∧ _))

theorem sep_split {c : Char} :
    ∀ {x1 x2 y1 y2 : List Char}, c ∉ x1 → c ∉ x2 →
      x1 ++ c :: y1 = x2 ++ c :: y2 → x1 = x2 ∧ y1 = y2 := by
  intro x1
  induction x1 with
  | nil =>
    intro x2 y1 y2 _ h2 h
    cases x2 with
    | nil => simpa using h
    | cons a t =>
      simp only [List.nil_append, List.cons_append, List.cons.injEq] at h
      exact absurd (h.1 ▸ List.mem_cons_self a t) h2
  | cons a t ih =>
    intro x2 y1 y2 h1 h2 h
    cases x2 with
    | nil =>
      simp only [List.cons_append, List.nil_append, List.cons.injEq] at h
      exact absurd (h.1 ▸ List.mem_cons_self a t) h1
    | cons b u =>
      simp only [List.cons_append, List.cons.injEq] at h
      have := ih (fun hm => h1 (List.mem_cons_of_mem a hm))
        (fun hm => h2 (List.mem_cons_of_mem b hm)) h.2
      exact ⟨by rw [h.1, this.1], this.2⟩

theorem encPair_inj {p1 p2 : String × String}
    (h1 : goodStr p1.1 ∧ goodStr p1.2) (h2 : goodStr p2.1 ∧ goodStr p2.2)
    (h : encPair p1 = encPair p2) : p1 = p2 := by
  unfold encPair at h
  have := sep_split h1.1.2 h2.1.2 h
  exact Prod.ext (strDataEq this.1) (strDataEq this.2)

theorem amp_not_mem_encPair {p : String × String}
    (h : goodStr p.1 ∧ goodStr p.2) : '&' ∉ encPair p := by
  unfold encPair
  intro hm
  rcases List.mem_append.1 hm with hk | hv
  · exact h.1.1 hk
  · rcases List.mem_cons.1 hv with he | hv
    · exact absurd he (by decide)
    · exact h.2.1 hv

theorem encQuery_shape (q : List (String × String)) :
    encQuery q = [] ∨ ∃ t, encQuery q = '&' :: t := by
  cases q with
  | nil => exact Or.inl rfl
  | cons p rest => exact Or.inr ⟨_, rfl⟩

theorem amp_block_split :
    ∀ {u1 : List Char} {u2 t1 t2 : List Char}, '&' ∉ u1 → '&' ∉ u2 →
      (t1 = [] ∨ ∃ r, t1 = '&' :: r) → (t2 = [] ∨ ∃ r, t2 = '&' :: r) →
      u1 ++ t1 = u2 ++ t2 → u1 = u2 ∧ t1 = t2 := by
  intro u1
  induction u1 with
  | nil =>
    intro u2 t1 t2 _ h2 g1 _ h
    cases u2 with
    | nil => simpa using h
    | cons b v =>
      simp only [List.nil_append, List.cons_append] at h
      rcases g1 with hnil | ⟨r, hr⟩
      · rw [hnil] at h; exact absurd h.symm (List.cons_ne_nil b (v ++ t2))
      · rw [hr] at h
        have hb : b = '&' := (List.cons.injEq _ _ _ _ ▸ h).1.symm
        exact absurd (hb ▸ List.mem_cons_self b v) h2
  | cons a u ih =>
    intro u2 t1 t2 h1 h2 g1 g2 h
    cases u2 with
    | nil =>
      simp only [List.cons_append, List.nil_append] at h
      rcases g2 with hnil | ⟨r, hr⟩
      · rw [hnil] at h; exact absurd h (List.cons_ne_nil a (u ++ t1))
      · rw [hr] at h
        have ha : a = '&' := (List.cons.injEq _ _ _ _ ▸ h).1
        exact absurd (ha ▸ List.mem_cons_self a u) h1
    | cons b v =>
      simp only [List.cons_append, List.cons.injEq] at h
      have := ih (fun hm => h1 (List.mem_cons_of_mem a hm))
        (fun hm => h2 (List.mem_cons_of_mem b hm)) g1 g2 h.2
      exact ⟨by rw [h.1, this.1], this.2⟩

theorem encQuery_inj :
    ∀ {q1 q2 : List (String × String)}, wfQuery q1 → wfQuery q2 →
      encQuery q1 = encQuery q2 → q1 = q2 := by
  intro q1
  induction q1 with
  | nil =>
    intro q2 _ _ h
    cases q2 with
    | nil => rfl
    | cons p rest => exact absurd h (by simp [encQuery])
  | cons p rest ih =>
    intro q2 h1 h2 h
    cases q2 with
    | nil => exact absurd h (by simp [encQuery])
    | cons p' rest' =>
      simp only [encQuery, List.cons.injEq, true_and] at h
      have hp1 : goodStr p.1 ∧ goodStr p.2 := h1 p (List.mem_cons_self _ _)
      have hp2 : goodStr p'.1 ∧ goodStr p'.2 := h2 p' (List.mem_cons_self _ _)
      have hsplit := amp_block_split (amp_not_mem_encPair hp1)
        (amp_not_mem_encPair hp2) (encQuery_shape rest) (encQuery_shape rest') h
      have hrest := ih (fun x hx => h1 x (List.mem_cons_of_mem _ hx))
        (fun x hx => h2 x (List.mem_cons_of_mem _ hx)) hsplit.2
      rw [encPair_inj hp1 hp2 hsplit.1, hrest]

theorem sortQuery_perm (q : List (String × String)) : List.Perm (sortQuery q) q :=
  List.perm_insertionSort qle q

theorem sortQuery_eq_of_perm {q1 q2 : List (String × String)}
    (h : List.Perm q1 q2) : sortQuery q1 = sortQuery q2 :=
  List.eq_of_perm_of_sorted
    (((sortQuery_perm q1).trans h).trans (sortQuery_perm q2).symm)
    (List.sorted_insertionSort qle q1) (List.sorted_insertionSort qle q2)

theorem wfQuery_of_perm {q1 q2 : List (String × String)}
    (h : List.Perm q1 q2) (hw : wfQuery q1) : wfQuery q2 :=
  fun p hp => hw p (h.symm.subset hp)

theorem buildKey_eq_iff {m p1 p2 : String} {q1 q2 : List (String × String)}
    (hp : normalizePath p1 = normalizePath p2)
    (hw1 : wfQuery q1) (hw2 : wfQuery q2) :
    buildKey m p1 q1 = buildKey m p2 q2 ↔ sortQuery q1 = sortQuery q2 := by
  constructor
  · intro h
    unfold buildKey at h
    have hdata : m.data ++ '|' :: ((normalizePath p1).data ++ '|' :: encQuery (sortQuery q1)) =
        m.data ++ '|' :: ((normalizePath p2).data ++ '|' :: encQuery (sortQuery q2)) := by
      have := congrArg String.data h
      simpa using this
    have h1 := List.append_cancel_left hdata
    rw [hp] at h1
    have h2 := List.append_cancel_left (List.cons.injEq _ _ _ _ ▸ h1).2
    have h3 := (List.cons.injEq _ _ _ _ ▸ h2).2
    exact encQuery_inj (wfQuery_of_perm (sortQuery_perm q1).symm hw1)
      (wfQuery_of_perm (sortQuery_perm q2).symm hw2) h3
  · intro h
    unfold buildKey
    rw [hp, h]

theorem perm_eq_of_map_fst_eq_nodup :
    ∀ {q1 q2 : List (String × String)}, List.Perm q1 q2 →
      q1.map Prod.fst = q2.map Prod.fst → (q1.map Prod.fst).Nodup → q1 = q2 := by
  intro q1
  induction q1 with
  | nil =>
    intro q2 hperm _ _
    exact hperm.nil_eq
  | cons p t ih =>
    intro q2 hperm hmap hnd
    cases q2 with
    | nil => exact absurd hperm.symm.nil_eq (by simp)
    | cons p' t' =>
      simp only [List.map_cons, List.cons.injEq] at hmap
      simp only [List.map_cons, List.nodup_cons] at hnd
      have hpmem : p ∈ p' :: t' := hperm.subset (List.mem_cons_self _ _)
      have hpp : p = p' := by
        rcases List.mem_cons.1 hpmem with h | h
        · exact h
        · exact absurd (hmap.2 ▸ (List.mem_map.2 ⟨p, h, rfl⟩) : p.1 ∈ t.map Prod.fst)
            (hmap.1 ▸ hnd.1)
      subst hpp
      have : t = t' := ih hperm.cons_inv hmap.2 hnd.2
      rw [this]

/-- C1: for cacheable read requests with the same method, the same
normalized path and the same multiset of (well-formed) query parameters —
in any order — `buildKey` produces identical keys; and two such requests
with the same distinct parameter names but differing in some parameter
value produce different keys. -/
theorem buildKey_correct (m p1 p2 : String) (q1 q2 : List (String × String))
    (hp : normalizePath p1 = normalizePath p2)
    (hw1 : wfQuery q1) (hw2 : wfQuery q2) :
    (List.Perm q1 q2 → buildKey m p1 q1 = buildKey m p2 q2) ∧
    (q1.map Prod.fst = q2.map Prod.fst → (q1.map Prod.fst).Nodup → q1 ≠ q2 →
      buildKey m p1 q1 ≠ buildKey m p2 q2) := by
  constructor
  · intro hperm
    exact (buildKey_eq_iff hp hw1 hw2).2 (sortQuery_eq_of_perm hperm)
  · intro hmap hnd hne hk
    have hsort := (buildKey_eq_iff hp hw1 hw2).1 hk
    have hperm : List.Perm q1 q2 :=
      ((sortQuery_perm q1).symm.trans (hsort ▸ sortQuery_perm q2))
    exact hne (perm_eq_of_map_fst_eq_nodup hperm hmap hnd)

/-- C1 witness: concrete instances of both halves of `buildKey_correct`. -/
theorem buildKey_correct_witness :
    buildKey "GET" "/products/" [("b", "2"), ("a", "1")] =
      buildKey "GET" "/products" [("a", "1"), ("b", "2")] ∧
    buildKey "GET" "/products" [("a", "1"), ("b", "2")] ≠
      buildKey "GET" "/products" [("a", "1"), ("b", "3")] :=
  ⟨(buildKey_correct "GET" "/products/" "/products"
      [("b", "2"), ("a", "1")] [("a", "1"), ("b", "2")]
      (by decide) (by decide) (by decide)).1 (by decide),
   (buildKey_correct "GET" "/products" "/products"
      [("a", "1"), ("b", "2")] [("a", "1"), ("b", "3")]
      rfl (by decide) (by decide)).2 rfl (by decide) (by decide)⟩

/-- Modelled from the spec: a cache entry (§3 data model): key, body,
status code, headers, the instant it was stored and its TTL in seconds. -/
structure CacheEntry where
  key : String
  body : Json
  statusCode : Nat
  headers : List (String × String)
  storedAt : Nat
  ttlSeconds : Nat

/-- Modelled from the spec: the Cache Store, a key-value store with
per-entry expiration, realized as an association list. -/
abbrev CacheStore := List (String × CacheEntry)

/-- Raw (physical) lookup of the entry stored under a key. -/
def CacheStore.findEntry : CacheStore → String → Option CacheEntry
  | [], _ => none
  | (k', e) :: rest, k => if k' = k then some e else CacheStore.findEntry rest k

/-- Modelled from the spec: `get(key) -> CacheEntry | absent`; an entry
whose `storedAt + ttl` has elapsed is treated as absent (lazy expiry). -/
def CacheStore.get (s : CacheStore) (k : String) (now : Nat) : Option CacheEntry :=
  match CacheStore.findEntry s k with
  | none => none
  | some e => if e.storedAt + e.ttlSeconds ≤ now then none else some e

/-- Modelled from the spec: `set(key, entry)` overwrites any existing
entry for the same key. -/
def CacheStore.set (s : CacheStore) (k : String) (e : CacheEntry) : CacheStore :=
  (k, e) :: s.filter (fun kv => decide (kv.1 ≠ k))

/-- Whether the first string is an initial segment of the second. -/
def strStartsWith (pre s : String) : Bool :=
  pre.data.isPrefixOf s.data

/-- Modelled from the spec: `invalidateAll()` wipes every entry. -/
def invalidateAll (_ : CacheStore) : CacheStore := []

/-- Modelled from the spec: `invalidateByResource` removes all cached
entries whose key was built from a read request path under the given
route path (keys begin with the method followed by the path). -/
def invalidateByResource (s : CacheStore) (pre : String) : CacheStore :=
  s.filter (fun kv =>
    !(strStartsWith ("GET|" ++ pre) kv.1 || strStartsWith ("HEAD|" ++ pre) kv.1))

/-- Modelled from the spec: a route (§3): path-prefix pattern, backend
base URL, cacheability flag and TTL. -/
structure Route where
  pathPre : String
  targetBaseURL : String
  cacheable : Bool
  ttlSeconds : Nat

/-- Modelled from the spec: `match(path)` in the Route Table — the route
whose pattern is the longest initial segment of the path wins. -/
def matchRoute (table : List Route) (path : String) : Option Route :=
  table.foldl
    (fun acc r =>
      if strStartsWith r.pathPre path then
        match acc with
        | none => some r
        | some best =>
          if best.pathPre.length < r.pathPre.length then some r else acc
      else acc)
    none

/-- An inbound HTTP request. -/
structure Request where
  method : String
  path : String
  query : List (String × String)
  headers : List (String × String)
  body : Json

/-- An HTTP response; `cached` is the marker the router adds on a hit. -/
structure Response where
  status : Nat
  headers : List (String × String)
  body : Json
  cached : Bool := false

/-- A backend as a black box: attempt number and request to maybe a
response (`none` models unreachability or timeout of that attempt). -/
abbrev Backend := Nat → Request → Option Response

/-- Modelled from the spec: bounded retry — a failed backend call is
retried exactly once before surfacing the failure.  Returns the final
outcome and the number of backend calls performed. -/
def callWithRetry (b : Backend) (req : Request) : Option Response × Nat :=
  match b 0 req with
  | some r => (some r, 1)
  | none =>
    match b 1 req with
    | some r => (some r, 2)
    | none => (none, 2)

/-- Modelled from the spec: outbound path rewriting — strip the matched
route pattern, keep the remainder. -/
def rewritePath (r : Route) (p : String) : String :=
  ⟨p.data.drop r.pathPre.data.length⟩

/-- The outbound request the router sends to the backend. -/
def outboundOf (r : Route) (req : Request) : Request :=
  { req with path := rewritePath r req.path }

/-- Whether a status code is a success (2xx) status. -/
def is2xx (n : Nat) : Bool :=
  decide (200 ≤ n) && decide (n < 300)

/-- Whether a method is an idempotent read (GET/HEAD). -/
def isReadMethod (m : String) : Bool :=
  m == "GET" || m == "HEAD"

/-- Whether a method is a mutating write. -/
def isWriteMethod (m : String) : Bool :=
  m == "POST" || m == "PUT" || m == "PATCH" || m == "DELETE"

/-- Modelled from the spec: the gateway-level 404 with a structured
`{error, message}` body. -/
def routeNotFoundResponse : Response :=
  { status := 404, headers := [],
    body := .obj [("error", .str "Not Found"),
                  ("message", .str "No route matches the requested path")] }

/-- Modelled from the spec: the 502/504-class response produced when the
backend is unreachable or times out after the bounded retry. -/
def badGatewayResponse : Response :=
  { status := 502, headers := [],
    body := .obj [("error", .str "Bad Gateway"),
                  ("message", .str "Backend unreachable or timed out")] }

/-- The cache entry built from a fresh backend response. -/
def entryOf (key : String) (resp : Response) (now ttl : Nat) : CacheEntry :=
  { key := key, body := resp.body, statusCode := resp.status,
    headers := resp.headers, storedAt := now, ttlSeconds := ttl }

/-- The response served from a cache entry, marked as cache-originated. -/
def cachedResponse (e : CacheEntry) : Response :=
  { status := e.statusCode, headers := e.headers, body := e.body, cached := true }

/-- Result of handling one request: the response, the resulting cache
store, and how many backend calls were made. -/
structure HandleResult where
  response : Response
  store : CacheStore
  backendCalls : Nat

/-- Modelled from the spec: the Request Router algorithm (§4.4) —
route resolution, cache lookup for cacheable reads, forwarding with
bounded retry, caching of successful responses, invalidation on
successful writes. -/
def handle (table : List Route) (store : CacheStore) (backend : Backend)
    (req : Request) (now : Nat) : HandleResult :=
  match matchRoute table req.path with
  | none => ⟨routeNotFoundResponse, store, 0⟩
  | some route =>
    if route.cacheable && isReadMethod req.method then
      match CacheStore.get store (buildKey req.method req.path req.query) now with
      | some e => ⟨cachedResponse e, store, 0⟩
      | none =>
        match callWithRetry backend (outboundOf route req) with
        | (none, n) => ⟨badGatewayResponse, store, n⟩
        | (some resp, n) =>
          if is2xx resp.status then
            ⟨resp,
             CacheStore.set store (buildKey req.method req.path req.query)
               (entryOf (buildKey req.method req.path req.query) resp now route.ttlSeconds),
             n⟩
          else ⟨resp, store, n⟩
    else
      match callWithRetry backend (outboundOf route req) with
      | (none, n) => ⟨badGatewayResponse, store, n⟩
      | (some resp, n) =>
        if isWriteMethod req.method && is2xx resp.status then
          ⟨resp, invalidateByResource store route.pathPre, n⟩
        else ⟨resp, store, n⟩

theorem callWithRetry_pos (b : Backend) (r : Request) : 1 ≤ (callWithRetry b r).2 := by
  unfold callWithRetry
  cases b 0 r with
  | some _ => simp
  | none =>
    cases b 1 r with
    | some _ => simp
    | none => simp

/-- C2: a Cache Store `get` on an entry whose `storedAt + ttlSeconds` has
elapsed returns absent, and the router's next handling of a cacheable
read request for that key performs a fresh backend call. -/
theorem cacheStore_expired_absent (s : CacheStore) (k : String) (now : Nat)
    (e : CacheEntry) (hfind : CacheStore.findEntry s k = some e)
    (hexp : e.storedAt + e.ttlSeconds ≤ now) :
    CacheStore.get s k now = none ∧
    ∀ (table : List Route) (backend : Backend) (req : Request) (route : Route),
      matchRoute table req.path = some route → route.cacheable = true →
      isReadMethod req.method = true → buildKey req.method req.path req.query = k →
      1 ≤ (handle table s backend req now).backendCalls := by
  have hget : CacheStore.get s k now = none := by
    unfold CacheStore.get
    rw [hfind]
    simp [hexp]
  refine ⟨hget, ?_⟩
  intro table backend req route hm hc hr hkey
  unfold handle
  rw [hm]
  simp only [hc, hr, Bool.and_self, if_true]
  rw [hkey, hget]
  have hpos := callWithRetry_pos backend (outboundOf route req)
  rcases hcall : callWithRetry backend (outboundOf route req) with ⟨o, n⟩
  rw [hcall] at hpos
  cases o with
  | none => simpa using hpos
  | some resp =>
    by_cases h2 : is2xx resp.status = true
    · simp only [h2, if_true]
      simpa using hpos
    · simp only [Bool.not_eq_true] at h2
      simp only [h2, Bool.false_eq_true, if_false]
      simpa using hpos

/-- C3: for a cacheable read request, when every backend outcome for the
outbound request is non-2xx (including the unreachable/timeout outcome),
the router leaves the Cache Store unchanged; and on a cache miss with an
unreachable backend it surfaces the 502-class gateway response. -/
theorem router_no_cache_on_error (table : List Route) (store : CacheStore)
    (backend : Backend) (req : Request) (now : Nat) (route : Route)
    (hm : matchRoute table req.path = some route) (hc : route.cacheable = true)
    (hr : isReadMethod req.method = true)
    (herr : ∀ resp, (callWithRetry backend (outboundOf route req)).1 = some resp →
      is2xx resp.status = false) :
    (handle table store backend req now).store = store ∧
    (CacheStore.get store (buildKey req.method req.path req.query) now = none →
      (callWithRetry backend (outboundOf route req)).1 = none →
      (handle table store backend req now).response = badGatewayResponse) := by
  constructor
  · unfold handle
    rw [hm]
    simp only [hc, hr, Bool.and_self, if_true]
    rcases hget : CacheStore.get store (buildKey req.method req.path req.query) now with _ | e
    · rcases hcall : callWithRetry backend (outboundOf route req) with ⟨o, n⟩
      cases o with
      | none => rfl
      | some resp =>
        have hfalse : is2xx resp.status = false := herr resp (by rw [hcall])
        simp only [hfalse, Bool.false_eq_true, if_false]
    · rfl
  · intro hget hnone
    unfold handle
    rw [hm]
    simp only [hc, hr, Bool.and_self, if_true]
    rw [hget]
    rcases hcall : callWithRetry backend (outboundOf route req) with ⟨o, n⟩
    rw [hcall] at hnone
    simp only at hnone
    subst hnone
    rfl

/-- C4: when no route pattern matches the request path, the router
responds 404 with a structured `{error, message}` body, leaves the Cache
Store unchanged and performs no backend call. -/
theorem router_404_on_no_route (table : List Route) (store : CacheStore)
    (backend : Backend) (req : Request) (now : Nat)
    (hm : matchRoute table req.path = none) :
    (handle table store backend req now).response.status = 404 ∧
    Json.hasField (handle table store backend req now).response.body "error" = true ∧
    Json.hasField (handle table store backend req now).response.body "message" = true ∧
    (handle table store backend req now).store = store ∧
    (handle table store backend req now).backendCalls = 0 := by
  unfold handle
  rw [hm]
  exact ⟨rfl, rfl, rfl, rfl, rfl⟩

/-- A concrete cache key used by the witness scenarios. -/
def wKey : String := buildKey "GET" "/api/x" []

/-- A concrete cache entry stored at time 0 with a 5 second TTL. -/
def wEntry : CacheEntry :=
  { key := wKey, body := .obj [], statusCode := 200, headers := [],
    storedAt := 0, ttlSeconds := 5 }

/-- A concrete cacheable route used by the witness scenarios. -/
def wRoute : Route :=
  { pathPre := "/api", targetBaseURL := "http://backend", cacheable := true,
    ttlSeconds := 5 }

/-- A concrete GET request matching `wRoute` and keyed by `wKey`. -/
def wReq : Request :=
  { method := "GET", path := "/api/x", query := [], headers := [], body := .obj [] }

/-- A concrete store holding exactly the entry `wEntry` under `wKey`. -/
def wStore : CacheStore := [(wKey, wEntry)]

/-- A backend that is unreachable on every attempt. -/
def backendDown : Backend := fun _ _ => none

/-- A backend that answers every request with a 500 error. -/
def backend500 : Backend :=
  fun _ _ => some { status := 500, headers := [], body := .obj [], cached := false }

/-- C2 witness: at time 10 the entry stored at 0 with TTL 5 is absent and
handling the corresponding request performs a backend call. -/
theorem cacheStore_expired_absent_witness :
    CacheStore.get wStore wKey 10 = none ∧
    1 ≤ (handle [wRoute] wStore backendDown wReq 10).backendCalls := by
  have h := cacheStore_expired_absent wStore wKey 10 wEntry
    (by simp [wStore, CacheStore.findEntry]) (by decide)
  exact ⟨h.1, h.2 [wRoute] backendDown wReq wRoute rfl rfl rfl rfl⟩

/-- C3 witness: a 500-answering backend leaves the store unchanged, and an
unreachable backend on an empty store yields the 502 gateway response. -/
theorem router_no_cache_on_error_witness :
    (handle [wRoute] wStore backend500 wReq 0).store = wStore ∧
    (handle [wRoute] [] backendDown wReq 0).response = badGatewayResponse := by
  constructor
  · exact (router_no_cache_on_error [wRoute] wStore backend500 wReq 0 wRoute
      rfl rfl rfl
      (by intro resp h; injection h with h2; subst h2; rfl)).1
  · exact (router_no_cache_on_error [wRoute] [] backendDown wReq 0 wRoute
      rfl rfl rfl
      (by intro resp h; exact Option.noConfusion h)).2 rfl rfl

/-- C4 witness: an empty route table produces the 404 behaviour at a
concrete request. -/
theorem router_404_on_no_route_witness :
    (handle [] wStore backendDown wReq 0).response.status = 404 ∧
    Json.hasField (handle [] wStore backendDown wReq 0).response.body "error" = true ∧
    Json.hasField (handle [] wStore backendDown wReq 0).response.body "message" = true ∧
    (handle [] wStore backendDown wReq 0).store = wStore ∧
    (handle [] wStore backendDown wReq 0).backendCalls = 0 :=
  router_404_on_no_route [] wStore backendDown wReq 0 rfl

/-- A user record of the user-service mock database. -/
structure User where
  id : String
  name : String
  email : String
  role : String
  createdAt : String
  updatedAt : Option String := none
deriving DecidableEq

/-- A product record of the product-service mock database. -/
structure Product where
  id : String
  name : String
  description : String
  price : Rat
  category : String
  stock : Int
  createdAt : String
  updatedAt : Option String := none
deriving DecidableEq

/-- Optional JSON field: present only when the value is. -/
def optField (n : String) (v : Option String) : List (String × Json) :=
  match v with
  | none => []
  | some s => [(n, .str s)]

/-- JSON serialization of a user, mirroring `res.json` on a user object. -/
def userJson (u : User) : Json :=
  .obj ([("id", .str u.id), ("name", .str u.name), ("email", .str u.email),
         ("role", .str u.role), ("createdAt", .str u.createdAt)] ++
        optField "updatedAt" u.updatedAt)

/-- JSON serialization of a product. -/
def productJson (p : Product) : Json :=
  .obj ([("id", .str p.id), ("name", .str p.name),
         ("description", .str p.description), ("price", .num p.price),
         ("category", .str p.category), ("stock", .num (p.stock : Rat)),
         ("createdAt", .str p.createdAt)] ++
        optField "updatedAt" p.updatedAt)

/-- JavaScript truthiness of an optional string request field: `undefined`
and the empty string are falsy. -/
def truthy (o : Option String) : Bool :=
  match o with
  | none => false
  | some s => decide (s ≠ "")

/-- JavaScript truthiness of an optional numeric request field: `undefined`
and `0` are falsy. -/
def truthyNum (o : Option Rat) : Bool :=
  match o with
  | none => false
  | some x => decide (x ≠ 0)

/-- A JSON response with the given status, as built by `res.status(..).json(..)`
(`res.json` alone responds 200). -/
def jsonRes (status : Nat) (body : Json) : Response :=
  { status := status, headers := [], body := body }

/-- `Math.ceil(total / limit)` on naturals. -/
def ceilDiv (total limit : Nat) : Nat :=
  if limit = 0 then 0 else (total + limit - 1) / limit

/-- The pagination object both list endpoints attach to their responses. -/
def paginationJson (page limit total : Nat) : Json :=
  .obj [("page", .num (page : Rat)), ("limit", .num (limit : Rat)),
        ("total", .num (total : Rat)), ("pages", .num (ceilDiv total limit : Rat))]

/-- Replace the first element satisfying the predicate, as the in-place
`array[findIndex(...)] = ...` mutation does. -/
def updateFirst {α : Type} (p : α → Bool) (f : α → α) : List α → List α
  | [] => []
  | x :: rest => if p x then f x :: rest else x :: updateFirst p f rest

/-- Remove the first element satisfying the predicate, as
`array.splice(findIndex(...), 1)` does. -/
def removeFirst {α : Type} (p : α → Bool) : List α → List α
  | [] => []
  | x :: rest => if p x then rest else x :: removeFirst p rest

/-- Whether the needle occurs as a contiguous run inside the haystack. -/
def containsSub (hay needle : List Char) : Bool :=
  hay.tails.any (fun t => needle.isPrefixOf t)

/-- Case-insensitive `includes`, as `a.toLowerCase().includes(b.toLowerCase())`. -/
def strIncludes (hay needle : String) : Bool :=
  containsSub hay.toLower.data needle.toLower.data

/-- Embedded from the user-service source, `app.get('/health')`. -/
def userServiceHealth (now : String) (uptime : Rat) : Response :=
  jsonRes 200 (.obj [("status", .str "healthy"), ("service", .str "user-service"),
                     ("timestamp", .str now), ("uptime", .num uptime)])

/-- Embedded from src/services/product-service/server.js, `app.get('/health')`. -/
def productServiceHealth (now : String) (uptime : Rat) : Response :=
  jsonRes 200 (.obj [("status", .str "healthy"), ("service", .str "product-service"),
                     ("timestamp", .str now), ("uptime", .num uptime)])

/-- Embedded from the user-service source, `app.get('/users')`: role
filter, then pagination with defaults `page = 1`, `limit = 10`. -/
def getUsers (users : List User) (pageQ limitQ : Option Nat)
    (role : Option String) : Response × List User :=
  let page := pageQ.getD 1
  let limit := limitQ.getD 10
  let filteredUsers :=
    if truthy role then users.filter (fun u => decide (u.role = role.getD ""))
    else users
  let startIndex := (page - 1) * limit
  let endIndex := page * limit
  let paginatedUsers := (filteredUsers.drop startIndex).take (endIndex - startIndex)
  (jsonRes 200 (.obj [("data", .arr (paginatedUsers.map userJson)),
      ("pagination", paginationJson page limit filteredUsers.length)]),
   users)

/-- The user-service 404 body for a missing user id. -/
def user404 (id : String) : Response :=
  jsonRes 404 (.obj [("error", .str "User not found"),
      ("message", .str ("User with ID " ++ id ++ " does not exist"))])

/-- Embedded from the user-service source, `app.get('/users/:id')`. -/
def getUserById (users : List User) (id : String) : Response × List User :=
  (match users.find? (fun u => decide (u.id = id)) with
   | none => user404 id
   | some u => jsonRes 200 (.obj [("data", userJson u)]),
   users)

/-- Embedded from the user-service source, `app.post('/users')`: field
validation, duplicate-email conflict check, then push. -/
def createUser (users : List User) (name email role : Option String)
    (newId now : String) : Response × List User :=
  if !truthy name || !truthy email then
    (jsonRes 400 (.obj [("error", .str "Validation error"),
        ("message", .str "Name and email are required")]), users)
  else
    match users.find? (fun u => decide (u.email = email.getD "")) with
    | some _ =>
      (jsonRes 409 (.obj [("error", .str "Conflict"),
          ("message", .str "User with this email already exists")]), users)
    | none =>
      let newUser : User :=
        { id := newId, name := name.getD "", email := email.getD "",
          role := role.getD "user", createdAt := now }
      (jsonRes 201 (.obj [("data", userJson newUser),
          ("message", .str "User created successfully")]), users ++ [newUser])

/-- The per-field conditional mutation of `app.put('/users/:id')`. -/
def userUpdateFn (name email role : Option String) (now : String) (u : User) : User :=
  let u1 := if truthy name then { u with name := name.getD "" } else u
  let u2 := if truthy email then { u1 with email := email.getD "" } else u1
  let u3 := if truthy role then { u2 with role := role.getD "" } else u2
  { u3 with updatedAt := some now }

/-- Embedded from the user-service source, `app.put('/users/:id')`. -/
def updateUser (users : List User) (id : String) (name email role : Option String)
    (now : String) : Response × List User :=
  match users.find? (fun u => decide (u.id = id)) with
  | none => (user404 id, users)
  | some u =>
    (jsonRes 200 (.obj [("data", userJson (userUpdateFn name email role now u)),
        ("message", .str "User updated successfully")]),
     updateFirst (fun v => decide (v.id = id)) (userUpdateFn name email role now) users)

/-- Embedded from the user-service source, `app.delete('/users/:id')`. -/
def deleteUser (users : List User) (id : String) : Response × List User :=
  match users.find? (fun u => decide (u.id = id)) with
  | none => (user404 id, users)
  | some u =>
    (jsonRes 200 (.obj [("data", userJson u),
        ("message", .str "User deleted successfully")]),
     removeFirst (fun v => decide (v.id = id)) users)

/-- Embedded from the user-service source, `app.get('/users/search/:query')`. -/
def searchUsers (users : List User) (query : String) : Response × List User :=
  let searchResults := users.filter (fun u =>
    strIncludes u.name query || strIncludes u.email query)
  (jsonRes 200 (.obj [("data", .arr (searchResults.map userJson)),
      ("query", .str query), ("count", .num (searchResults.length : Rat))]),
   users)

/-- The product-service 404 body for a missing product id. -/
def product404 (id : String) : Response :=
  jsonRes 404 (.obj [("error", .str "Product not found"),
      ("message", .str ("Product with ID " ++ id ++ " does not exist"))])

/-- Embedded from src/services/product-service/server.js, `app.get('/products')`:
category and price-range filters, then pagination. -/
def getProducts (products : List Product) (pageQ limitQ : Option Nat)
    (category : Option String) (minPrice maxPrice : Option Rat) :
    Response × List Product :=
  let page := pageQ.getD 1
  let limit := limitQ.getD 10
  let f1 : List Product :=
    if truthy category then
      products.filter (fun p => decide (p.category = category.getD ""))
    else products
  let f2 : List Product := match minPrice with
    | some m => f1.filter (fun p => decide (m ≤ p.price))
    | none => f1
  let f3 : List Product := match maxPrice with
    | some m => f2.filter (fun p => decide (p.price ≤ m))
    | none => f2
  let startIndex := (page - 1) * limit
  let endIndex := page * limit
  let paginated := (f3.drop startIndex).take (endIndex - startIndex)
  (jsonRes 200 (.obj [("data", .arr (paginated.map productJson)),
      ("pagination", paginationJson page limit f3.length)]),
   products)

/-- Embedded from src/services/product-service/server.js, `app.get('/products/:id')`. -/
def getProductById (products : List Product) (id : String) : Response × List Product :=
  (match products.find? (fun p => decide (p.id = id)) with
   | none => product404 id
   | some p => jsonRes 200 (.obj [("data", productJson p)]),
   products)

/-- Embedded from src/services/product-service/server.js, `app.post('/products')`:
required-field validation (a `0` price is falsy and fails it), positivity
check, then push. -/
def createProduct (products : List Product) (name description : Option String)
    (price : Option Rat) (category : Option String) (stock : Option Int)
    (newId now : String) : Response × List Product :=
  if !truthy name || !truthy description || !truthyNum price || !truthy category then
    (jsonRes 400 (.obj [("error", .str "Validation error"),
        ("message", .str "Name, description, price, and category are required")]),
     products)
  else if price.getD 0 ≤ 0 then
    (jsonRes 400 (.obj [("error", .str "Validation error"),
        ("message", .str "Price must be greater than 0")]), products)
  else
    let newProduct : Product :=
      { id := newId, name := name.getD "", description := description.getD "",
        price := price.getD 0, category := category.getD "",
        stock := stock.getD 0, createdAt := now }
    (jsonRes 201 (.obj [("data", productJson newProduct),
        ("message", .str "Product created successfully")]),
     products ++ [newProduct])

/-- The per-field conditional mutation of `app.put('/products/:id')`. -/
def productUpdateFn (name description : Option String) (price : Option Rat)
    (category : Option String) (stock : Option Int) (now : String)
    (p : Product) : Product :=
  let p1 := if truthy name then { p with name := name.getD "" } else p
  let p2 := if truthy description then { p1 with description := description.getD "" } else p1
  let p3 := if truthyNum price then { p2 with price := price.getD 0 } else p2
  let p4 := if truthy category then { p3 with category := category.getD "" } else p3
  let p5 := match stock with
    | some s => { p4 with stock := s }
    | none => p4
  { p5 with updatedAt := some now }

/-- Embedded from src/services/product-service/server.js, `app.put('/products/:id')`. -/
def updateProduct (products : List Product) (id : String)
    (name description : Option String) (price : Option Rat)
    (category : Option String) (stock : Option Int) (now : String) :
    Response × List Product :=
  match products.find? (fun p => decide (p.id = id)) with
  | none => (product404 id, products)
  | some p =>
    (jsonRes 200 (.obj [("data",
        productJson (productUpdateFn name description price category stock now p)),
        ("message", .str "Product updated successfully")]),
     updateFirst (fun v => decide (v.id = id))
       (productUpdateFn name description price category stock now) products)

/-- Embedded from src/services/product-service/server.js, `app.delete('/products/:id')`. -/
def deleteProduct (products : List Product) (id : String) : Response × List Product :=
  match products.find? (fun p => decide (p.id = id)) with
  | none => (product404 id, products)
  | some p =>
    (jsonRes 200 (.obj [("data", productJson p),
        ("message", .str "Product deleted successfully")]),
     removeFirst (fun v => decide (v.id = id)) products)

/-- Embedded from src/services/product-service/server.js,
`app.get('/products/search/:query')`. -/
def searchProducts (products : List Product) (query : String) :
    Response × List Product :=
  let searchResults := products.filter (fun p =>
    strIncludes p.name query || strIncludes p.description query ||
    strIncludes p.category query)
  (jsonRes 200 (.obj [("data", .arr (searchResults.map productJson)),
      ("query", .str query), ("count", .num (searchResults.length : Rat))]),
   products)

/-- First-occurrence deduplication, as `[...new Set(xs)]`. -/
def dedupFirst (seen : List String) : List String → List String
  | [] => []
  | x :: rest =>
    if seen.contains x then dedupFirst seen rest
    else x :: dedupFirst (x :: seen) rest

/-- Embedded from src/services/product-service/server.js, `app.get('/categories')`. -/
def getCategories (products : List Product) : Response × List Product :=
  let categories := dedupFirst [] (products.map (fun p => p.category))
  (jsonRes 200 (.obj [("data", .arr (categories.map Json.str)),
      ("count", .num (categories.length : Rat))]),
   products)

/-- The stock mutation of `app.patch('/products/:id/stock')`: `add` adds,
`subtract` clamps at zero via `Math.max(0, ...)`, anything else sets. -/
def applyStockOp (p : Product) (q : Int) (operation now : String) : Product :=
  match operation with
  | "add" => { p with stock := p.stock + q, updatedAt := some now }
  | "subtract" => { p with stock := max 0 (p.stock - q), updatedAt := some now }
  | _ => { p with stock := q, updatedAt := some now }

/-- Embedded from src/services/product-service/server.js,
`app.patch('/products/:id/stock')`: 404 on unknown id, 400 on missing
quantity, otherwise apply the operation (default `set`) to the first
matching product. -/
def patchStock (products : List Product) (id : String) (quantity : Option Int)
    (operation : Option String) (now : String) : Response × List Product :=
  match products.find? (fun p => decide (p.id = id)) with
  | none => (product404 id, products)
  | some p =>
    match quantity with
    | none =>
      (jsonRes 400 (.obj [("error", .str "Validation error"),
          ("message", .str "Quantity is required")]), products)
    | some q =>
      (jsonRes 200 (.obj [("data",
          productJson (applyStockOp p q (operation.getD "set") now)),
          ("message", .str "Stock updated successfully")]),
       updateFirst (fun v => decide (v.id = id))
         (fun v => applyStockOp v q (operation.getD "set") now) products)

/-- The first seeded user of the user-service mock database. -/
def seedUser1 (t : String) : User :=
  { id := "1", name := "João Silva", email := "joao@example.com",
    role := "admin", createdAt := t }

/-- The second seeded user. -/
def seedUser2 (t : String) : User :=
  { id := "2", name := "Maria Santos", email := "maria@example.com",
    role := "user", createdAt := t }

/-- The third seeded user. -/
def seedUser3 (t : String) : User :=
  { id := "3", name := "Pedro Oliveira", email := "pedro@example.com",
    role := "user", createdAt := t }

/-- The user-service mock database at startup time `t`. -/
def initialUsers (t : String) : List User :=
  [seedUser1 t, seedUser2 t, seedUser3 t]

/-- The first seeded product of the product-service mock database. -/
def seedProduct1 (t : String) : Product :=
  { id := "1", name := "Smartphone Galaxy",
    description := "Smartphone Android com 128GB de armazenamento",
    price := 89999/100, category := "electronics", stock := 50, createdAt := t }

/-- The second seeded product. -/
def seedProduct2 (t : String) : Product :=
  { id := "2", name := "Notebook Dell",
    description := "Notebook Dell Inspiron 15 com Intel i5",
    price := 249999/100, category := "electronics", stock := 25, createdAt := t }

/-- The third seeded product. -/
def seedProduct3 (t : String) : Product :=
  { id := "3", name := "Camiseta Básica",
    description := "Camiseta 100% algodão, várias cores",
    price := 2999/100, category := "clothing", stock := 100, createdAt := t }

/-- The fourth seeded product. -/
def seedProduct4 (t : String) : Product :=
  { id := "4", name := "Livro JavaScript",
    description := "Guia completo de JavaScript moderno",
    price := 5999/100, category := "books", stock := 30, createdAt := t }

/-- The product-service mock database at startup time `t`. -/
def initialProducts (t : String) : List Product :=
  [seedProduct1 t, seedProduct2 t, seedProduct3 t, seedProduct4 t]

/-- C5: both backend health handlers answer 200 with a JSON body carrying
`status` and `timestamp` fields, at every invocation time. -/
theorem health_endpoints_ok (now : String) (uptime : Rat) :
    (productServiceHealth now uptime).status = 200 ∧
    Json.hasField (productServiceHealth now uptime).body "status" = true ∧
    Json.hasField (productServiceHealth now uptime).body "timestamp" = true ∧
    (userServiceHealth now uptime).status = 200 ∧
    Json.hasField (userServiceHealth now uptime).body "status" = true ∧
    Json.hasField (userServiceHealth now uptime).body "timestamp" = true :=
  ⟨rfl, rfl, rfl, rfl, rfl, rfl⟩

/-- The spec's end-to-end route for the user service. -/
def usersRoute : Route :=
  { pathPre := "/api/users", targetBaseURL := "http://user-service:3001",
    cacheable := true, ttlSeconds := 30 }

/-- The inbound request `GET /api/users/users`. -/
def usersReq : Request :=
  { method := "GET", path := "/api/users/users", query := [], headers := [],
    body := .obj [] }

/-- A backend speaking for the user service's `GET /users` handler. -/
def userBackend (users : List User) : Backend := fun _ r =>
  if r.method = "GET" ∧ r.path = "/users" then some (getUsers users none none none).1
  else none

/-- C6: `GET /users` with no role filter and default pagination answers
200 with `data` holding the first page (ten) of the stored users, and the
gateway forwarding `GET /api/users/users` to that handler returns the
same 200 `{data: [...]}` response. -/
theorem getUsers_default_first_page (users : List User) (now : Nat) :
    (getUsers users none none none).1.status = 200 ∧
    Json.getField (getUsers users none none none).1.body "data" =
      some (.arr ((users.take 10).map userJson)) ∧
    (handle [usersRoute] [] (userBackend users) usersReq now).response.status = 200 ∧
    Json.getField
      (handle [usersRoute] [] (userBackend users) usersReq now).response.body "data" =
      some (.arr ((users.take 10).map userJson)) :=
  ⟨rfl, rfl, rfl, rfl⟩

/-- C7: every collection-reading (GET) handler of the two services leaves
its service's in-memory collection unchanged; only the POST/PUT/PATCH/
DELETE handlers can mutate it. -/
theorem read_handlers_leave_state (products : List Product) (users : List User)
    (pageQ limitQ : Option Nat) (category role : Option String)
    (minPrice maxPrice : Option Rat) (id query : String) :
    (getProducts products pageQ limitQ category minPrice maxPrice).2 = products ∧
    (getProductById products id).2 = products ∧
    (searchProducts products query).2 = products ∧
    (getCategories products).2 = products ∧
    (getUsers users pageQ limitQ role).2 = users ∧
    (getUserById users id).2 = users ∧
    (searchUsers users query).2 = users :=
  ⟨rfl, rfl, rfl, rfl, rfl, rfl, rfl⟩

theorem find_first_match {α : Type} (p : α → Bool) (x : α) (pre post : List α)
    (hpre : ∀ y ∈ pre, p y = false) (hx : p x = true) :
    List.find? p (pre ++ x :: post) = some x := by
  induction pre with
  | nil => exact List.find?_cons_of_pos _ hx
  | cons a t ih =>
    rw [List.cons_append,
      List.find?_cons_of_neg _ (by simp [hpre a (List.mem_cons_self a t)])]
    exact ih (fun y hy => hpre y (List.mem_cons_of_mem a hy))

theorem updateFirst_append {α : Type} (p : α → Bool) (f : α → α) (x : α)
    (pre post : List α) (hpre : ∀ y ∈ pre, p y = false) (hx : p x = true) :
    updateFirst p f (pre ++ x :: post) = pre ++ f x :: post := by
  induction pre with
  | nil => simp [updateFirst, hx]
  | cons a t ih =>
    rw [List.cons_append, updateFirst, hpre a (List.mem_cons_self a t)]
    simp only [Bool.false_eq_true, if_false, List.cons_append]
    rw [ih (fun y hy => hpre y (List.mem_cons_of_mem a hy))]

/-- C8: for an existing product (first match of the id) and a provided
quantity, the `subtract` stock operation replaces the product's stock by
`max 0 (stock - quantity)` — never negative — answering 200. -/
theorem patchStock_subtract_clamps (pre post : List Product) (p : Product)
    (id : String) (q : Int) (now : String)
    (hpre : ∀ y ∈ pre, decide (y.id = id) = false) (hp : p.id = id) :
    (patchStock (pre ++ p :: post) id (some q) (some "subtract") now).2 =
      pre ++ { p with
        stock := max 0 (p.stock - q), updatedAt := some now } :: post ∧
    0 ≤ ({ p with
        stock := max 0 (p.stock - q), updatedAt := some now } : Product).stock ∧
    (patchStock (pre ++ p :: post) id (some q) (some "subtract") now).1.status = 200 := by
  have hx : decide (p.id = id) = true := by simp [hp]
  have hfind := find_first_match (fun v => decide (v.id = id)) p pre post hpre hx
  have hupd := updateFirst_append (fun v => decide (v.id = id))
    (fun v => applyStockOp v q "subtract" now) p pre post hpre hx
  unfold patchStock
  rw [hfind]
  exact ⟨by simpa [applyStockOp] using hupd, le_max_left 0 _, rfl⟩

/-- C8 witness: subtracting 60 from the first seeded product's stock of 50
clamps it to 0. -/
theorem patchStock_subtract_clamps_witness :
    (patchStock (initialProducts "t0") "1" (some 60) (some "subtract") "t1").2 =
      { seedProduct1 "t0" with
        stock := max 0 ((seedProduct1 "t0").stock - 60),
        updatedAt := some "t1" } ::
        [seedProduct2 "t0", seedProduct3 "t0", seedProduct4 "t0"] ∧
    0 ≤ ({ seedProduct1 "t0" with
        stock := max 0 ((seedProduct1 "t0").stock - 60),
        updatedAt := some "t1" } : Product).stock ∧
    (patchStock (initialProducts "t0") "1" (some 60) (some "subtract") "t1").1.status = 200 :=
  patchStock_subtract_clamps [] [seedProduct2 "t0", seedProduct3 "t0", seedProduct4 "t0"]
    (seedProduct1 "t0") "1" 60 "t1" (by simp) rfl

theorem find_some_of_mem {α : Type} (p : α → Bool) (l : List α) (x : α)
    (hx : x ∈ l) (hpx : p x = true) : ∃ y, List.find? p l = some y := by
  induction l with
  | nil => cases hx
  | cons a t ih =>
    by_cases ha : p a = true
    · exact ⟨a, List.find?_cons_of_pos _ ha⟩
    · rcases List.mem_cons.1 hx with rfl | hm
      · exact absurd hpx ha
      · obtain ⟨y, hy⟩ := ih hm
        exact ⟨y, by rw [List.find?_cons_of_neg _ ha, hy]⟩

/-- C9 counterexample: a `POST /users` request with no name and the
duplicate email `joao@example.com` satisfies the claim's antecedent (the
email equals a stored user's email) but is answered 400, not 409, because
the required-field validation runs before the conflict check. -/
theorem createUser_duplicate_email_cex :
    (∃ u ∈ initialUsers "t0", u.email = "joao@example.com") ∧
    (createUser (initialUsers "t0") none (some "joao@example.com") none "uid" "t1").1.status = 400 ∧
    (createUser (initialUsers "t0") none (some "joao@example.com") none "uid" "t1").1.status ≠ 409 := by
  refine ⟨⟨seedUser1 "t0", by simp [initialUsers], rfl⟩, rfl, by decide⟩

/-- C9 (amended): a `POST /users` request that passes field validation
(nonempty name and email) whose email equals the email of some stored
user is answered 409 and leaves the users collection unchanged. -/
theorem createUser_duplicate_email (users : List User) (name email : String)
    (role : Option String) (newId now : String)
    (hn : name ≠ "") (he : email ≠ "")
    (hdup : ∃ u ∈ users, u.email = email) :
    (createUser users (some name) (some email) role newId now).1.status = 409 ∧
    (createUser users (some name) (some email) role newId now).2 = users := by
  obtain ⟨u, hu, heq⟩ := hdup
  obtain ⟨v, hv⟩ := find_some_of_mem
    (fun w => decide (w.email = (some email : Option String).getD "")) users u hu
    (by simp [heq])
  have h1 : truthy (some name) = true := by simp [truthy, hn]
  have h2 : truthy (some email) = true := by simp [truthy, he]
  unfold createUser
  simp only [h1, h2, Bool.not_true, Bool.or_self, Bool.false_eq_true, if_false]
  rw [hv]
  exact ⟨rfl, rfl⟩

/-- C9 witness for the amended claim: adding `Ana` with the existing email
is refused with 409 and the collection is untouched. -/
theorem createUser_duplicate_email_witness :
    (createUser (initialUsers "t0") (some "Ana") (some "joao@example.com") none "uid" "t1").1.status = 409 ∧
    (createUser (initialUsers "t0") (some "Ana") (some "joao@example.com") none "uid" "t1").2 = initialUsers "t0" :=
  createUser_duplicate_email (initialUsers "t0") "Ana" "joao@example.com" none "uid" "t1"
    (by decide) (by decide) ⟨seedUser1 "t0", by simp [initialUsers], rfl⟩

/-- C10: a `POST /products` request with a missing (falsy) name,
description, price or category, or with a non-positive price, is answered
400 with an `{error, message}` body and leaves the products collection
unchanged; a price of exactly 0 is caught by the required-field check
(0 is falsy) and answered with its message. -/
theorem createProduct_rejects_invalid (products : List Product)
    (name description : Option String) (price : Option Rat)
    (category : Option String) (stock : Option Int) (newId now : String)
    (h : truthy name = false ∨ truthy description = false ∨
         truthyNum price = false ∨ truthy category = false ∨
         (∃ x, price = some x ∧ x ≤ 0)) :
    (createProduct products name description price category stock newId now).1.status = 400 ∧
    Json.hasField (createProduct products name description price category stock newId now).1.body "error" = true ∧
    Json.hasField (createProduct products name description price category stock newId now).1.body "message" = true ∧
    (createProduct products name description price category stock newId now).2 = products ∧
    (price = some 0 →
      (createProduct products name description price category stock newId now).1.body =
        .obj [("error", .str "Validation error"),
              ("message", .str "Name, description, price, and category are required")]) := by
  by_cases hbad : (!truthy name || !truthy description || !truthyNum price || !truthy category) = true
  · unfold createProduct
    simp only [hbad, if_true]
    exact ⟨rfl, rfl, rfl, trivial, fun _ => rfl⟩
  · have hc : truthyNum price = true := by
      cases htn : truthyNum price with
      | true => rfl
      | false => exact absurd (by simp [htn]) hbad
    have hex : ∃ x, price = some x ∧ x ≤ 0 := by
      rcases h with h | h | h | h | h
      · exact absurd (by simp [h]) hbad
      · exact absurd (by simp [h]) hbad
      · exact absurd (by simp [h]) hbad
      · exact absurd (by simp [h]) hbad
      · exact h
    obtain ⟨x, hx, hx0⟩ := hex
    have hbf : (!truthy name || !truthy description || !truthyNum price ||
        !truthy category) = false := by
      cases hb2 : (!truthy name || !truthy description || !truthyNum price ||
          !truthy category) with
      | true => exact absurd hb2 hbad
      | false => rfl
    unfold createProduct
    simp only [hbf, Bool.false_eq_true, if_false]
    rw [hx]
    simp only [Option.getD_some]
    rw [if_pos hx0]
    refine ⟨rfl, rfl, rfl, rfl, fun h0 => ?_⟩
    injection h0 with hx00
    rw [hx, hx00] at hc
    simp [truthyNum] at hc

/-- C10 witness: a request with all fields present but price 0 is refused
400 by the required-field branch and the collection is unchanged. -/
theorem createProduct_rejects_invalid_witness :
    (createProduct (initialProducts "t0") (some "Mouse") (some "Mouse sem fio")
      (some 0) (some "electronics") none "pid" "t1").1.status = 400 ∧
    Json.hasField (createProduct (initialProducts "t0") (some "Mouse") (some "Mouse sem fio")
      (some 0) (some "electronics") none "pid" "t1").1.body "error" = true ∧
    Json.hasField (createProduct (initialProducts "t0") (some "Mouse") (some "Mouse sem fio")
      (some 0) (some "electronics") none "pid" "t1").1.body "message" = true ∧
    (createProduct (initialProducts "t0") (some "Mouse") (some "Mouse sem fio")
      (some 0) (some "electronics") none "pid" "t1").2 = initialProducts "t0" ∧
    (createProduct (initialProducts "t0") (some "Mouse") (some "Mouse sem fio")
      (some 0) (some "electronics") none "pid" "t1").1.body =
      .obj [("error", .str "Validation error"),
            ("message", .str "Name, description, price, and category are required")] := by
  have h := createProduct_rejects_invalid (initialProducts "t0") (some "Mouse")
    (some "Mouse sem fio") (some 0) (some "electronics") none "pid" "t1"
    (Or.inr (Or.inr (Or.inl (by decide))))
  exact ⟨h.1, h.2.1, h.2.2.1, h.2.2.2.1, h.2.2.2.2 rfl⟩
